import Mathlib

/-
Verification development for the immunity twitter bot
(src/immunity_twitter_bot.py).

The embedding models the two core functions, frame_cleaner and
data_preparator, together with the module entry block.  Conventions:

* Dates are modelled as serial day numbers (days since 1970-01-01, an Int).
  The source compares dates through their unique strftime strings
  (format day.month.year), and string equality on that format coincides
  with date equality, so serial equality is a faithful translation.
  The later reformat of the Datum column to a short day.month string is a
  display-only change and is not modelled separately.
* pandas NaN cells are modelled as Option.none.
* Python floats are modelled as exact rationals.  Every float value the
  claims touch is produced by a single division or multiplication whose
  exact value fits the IEEE double result (line comments note this where
  numeric literals are involved).
* Fallible Python code is modelled in Except PyErr; the builtin exception
  class raised at each point is recorded in the error value.
* logging.warning calls are modelled by returning the warned messages next
  to the result.
-/

namespace ImmunityBot

/-- Builtin Python exception classes that the modelled code can raise. -/
inductive PyErr where
  | typeError
  | keyError
  | indexError
  | valueError
  | zeroDivisionError
  | overflowError
  | nameError
deriving DecidableEq

/-- Pandas float cell values: NaN, the two infinities, or a finite value
(modelled as an exact rational). -/
inductive PFloat where
  | nan
  | inf
  | ninf
  | val (q : ℚ)
deriving DecidableEq

/-- IEEE-style subtraction on series cells (exact-rational idealisation for
finite values; NaN propagates, opposite infinities give NaN). -/
def PFloat.sub : PFloat → PFloat → PFloat
  | .val a, .val b => .val (Rat.divInt (a.num * b.den - b.num * a.den) (a.den * b.den))
  | .nan, _ => .nan
  | _, .nan => .nan
  | .inf, .inf => .nan
  | .inf, _ => .inf
  | .ninf, .ninf => .nan
  | .ninf, _ => .ninf
  | _, .inf => .ninf
  | _, .ninf => .inf

/-- IEEE-style division on series cells: finite/0 gives a signed infinity
(0/0 gives NaN), NaN propagates, inf/inf gives NaN.  Canonical rationals
have positive denominators, so the sign of a value is the sign of its
numerator. -/
def PFloat.div : PFloat → PFloat → PFloat
  | .nan, _ => .nan
  | _, .nan => .nan
  | .val a, .val b =>
      if b.num = 0 then
        (if a.num = 0 then .nan else if 0 < a.num then .inf else .ninf)
      else .val (Rat.divInt (a.num * b.den) (a.den * b.num))
  | .inf, .val b => if b.num < 0 then .ninf else .inf
  | .ninf, .val b => if b.num < 0 then .inf else .ninf
  | .val _, .inf => .val (Rat.divInt 0 1)
  | .val _, .ninf => .val (Rat.divInt 0 1)
  | .inf, .inf => .nan
  | .inf, .ninf => .nan
  | .ninf, .inf => .nan
  | .ninf, .ninf => .nan

/-- Python int() applied to a nonnegative-or-negative rational: truncation
toward zero (matches CPython int(float) semantics exactly on exact values). -/
def truncQ (q : ℚ) : Int := q.num.tdiv q.den

/-- Python int() applied to a float series cell: NaN raises ValueError,
infinities raise OverflowError, finite values truncate toward zero. -/
def pyIntPF : PFloat → Except PyErr Int
  | .nan => .error .valueError
  | .inf => .error .overflowError
  | .ninf => .error .overflowError
  | .val q => .ok (truncQ q)

/-- One row of the RKI table, restricted to the columns the claims read:
the Datum cell (serial day number) and the Zweitimpfung cell (none = NaN). -/
structure Row where
  datum : Int
  zweit : Option Int
deriving DecidableEq

/-- The dataframe, restricted to the columns the claims read.  hasZweit
records whether the Zweitimpfung column is present (upstream schema drift);
the Datum column is always present in the inputs the claims quantify over. -/
structure Frame where
  hasZweit : Bool
  rows : List Row
deriving DecidableEq

/-- Datum column of a frame. -/
def datumCol (df : Frame) : List Int := df.rows.map Row.datum

/-- Zweitimpfung column of a frame (cells may be NaN). -/
def zweitCol (df : Frame) : List (Option Int) := df.rows.map Row.zweit

/-- Clean Series invariant from the spec: the tracked column is present and
every row has a non-missing Zweitimpfung value. -/
def CleanSeries (df : Frame) : Prop :=
  df.hasZweit = true ∧ ∀ r ∈ df.rows, r.zweit ≠ none

instance (df : Frame) : Decidable (CleanSeries df) := by
  unfold CleanSeries; infer_instance

instance {ε α : Type _} [DecidableEq ε] [DecidableEq α] : DecidableEq (Except ε α) :=
  fun a b =>
    match a, b with
    | .error e, .error f =>
        match decEq e f with
        | isTrue h => isTrue (h ▸ rfl)
        | isFalse h => isFalse (fun c => h (by injection c))
    | .ok x, .ok y =>
        match decEq x y with
        | isTrue h => isTrue (h ▸ rfl)
        | isFalse h => isFalse (fun c => h (by injection c))
    | .error _, .ok _ => isFalse (fun c => Except.noConfusion c)
    | .ok _, .error _ => isFalse (fun c => Except.noConfusion c)

/-- pandas Series.iloc with index -1: last element, or IndexError on an
empty series. -/
def ilocLast (xs : List α) : Except PyErr α :=
  match xs.getLast? with
  | some x => .ok x
  | none => .error .indexError

/-- Sum of a window of cells: NaN (none) as soon as any cell is NaN. -/
def optSum : List (Option Int) → Option Int
  | [] => some 0
  | none :: _ => none
  | some v :: xs => (optSum xs).map (fun s => v + s)

/-- pandas Series.rolling(7).mean(): NaN for the first six positions and for
any window containing a NaN, otherwise the exact window mean. -/
def rollingMean7 (xs : List (Option Int)) : List PFloat :=
  (List.range xs.length).map (fun i =>
    if i + 1 < 7 then .nan
    else
      match optSum ((xs.drop (i + 1 - 7)).take 7) with
      | none => .nan
      | some s => .val (Rat.divInt s 7))

/-- Forward fill of NaN cells (pandas fill_method=pad), used by pct_change. -/
def padFillAux : Option PFloat → List PFloat → List PFloat
  | _, [] => []
  | last, .nan :: xs => (last.getD .nan) :: padFillAux last xs
  | _, x :: xs => x :: padFillAux (some x) xs

/-- pandas Series.pct_change(): pad-fill, then cell-wise
(x_i - x_(i-1)) / x_(i-1) with NaN in the first position. -/
def pctChange (xs : List PFloat) : List PFloat :=
  match xs with
  | [] => []
  | _ :: _ =>
      let p := padFillAux none xs
      .nan :: ((p.zip (p.drop 1)).map (fun ab => (ab.2.sub ab.1).div ab.1))

/-- pandas Series.cumsum() with default skipna: NaN cells stay NaN and are
skipped in the running total. -/
def cumsumAux : Int → List (Option Int) → List (Option Int)
  | _, [] => []
  | acc, none :: xs => none :: cumsumAux acc xs
  | acc, some v :: xs => some (acc + v) :: cumsumAux (acc + v) xs

/-- pandas Series.cumsum() starting from zero. -/
def cumsum (xs : List (Option Int)) : List (Option Int) := cumsumAux 0 xs

/-- Python int() applied to a possibly-NaN integer cell: NaN raises
ValueError. -/
def intOfCell : Option Int → Except PyErr Int
  | none => .error .valueError
  | some v => .ok v

/-- Civil date from a serial day number (days since 1970-01-01), proleptic
Gregorian; the standard days-to-civil conversion with floor divisions. -/
def civilFromDays (z0 : Int) : Int × Int × Int :=
  let z := z0 + 719468
  let era := Int.ediv z 146097
  let doe := z - era * 146097
  let yoe := Int.ediv (doe - Int.ediv doe 1460 + Int.ediv doe 36524 - Int.ediv doe 146096) 365
  let y := yoe + era * 400
  let doy := doe - (365 * yoe + Int.ediv yoe 4 - Int.ediv yoe 100)
  let mp := Int.ediv (5 * doy + 2) 153
  let d := doy - Int.ediv (153 * mp + 2) 5 + 1
  let m := mp + (if mp < 10 then 3 else -9)
  (y + (if m ≤ 2 then 1 else 0), m, d)

/-- Serial day number (days since 1970-01-01) of a civil date. -/
def daysFromCivil (y0 m d : Int) : Int :=
  let y := y0 - (if m ≤ 2 then 1 else 0)
  let era := Int.ediv y 400
  let yoe := y - era * 400
  let doy := Int.ediv (153 * (m + (if 2 < m then -3 else 9)) + 2) 5 + d - 1
  let doe := yoe * 365 + Int.ediv yoe 4 - Int.ediv yoe 100 + doy
  era * 146097 + doe - 719468

/-- Smallest serial day Python datetime.date supports (0001-01-01). -/
def minDateSerial : Int := daysFromCivil 1 1 1

/-- Largest serial day Python datetime.date supports (9999-12-31). -/
def maxDateSerial : Int := daysFromCivil 9999 12 31

/-- English month names as produced by strftime %B in the C locale. -/
def monthNameOf (m : Int) : String :=
  [("January" : String), "February", "March", "April", "May", "June", "July",
    "August", "September", "October", "November", "December"].getD (m - 1).toNat ""

/-- Heterogeneous Python dict values stored by data_preparator. -/
inductive PyVal where
  | int (n : Int)
  | str (s : String)
  | series (xs : List PFloat)
deriving DecidableEq

/-- The result dictionary of data_preparator: insertion-ordered key/value
pairs as in the Python dict. -/
abbrev PyDict := List (String × PyVal)

/-- German population constant from line 79 of the source. -/
def GER_POP : Int := 83000000

/-- herd_pop from line 81: int(GER_POP * 0.7).  The IEEE double product
83000000 * 0.7 rounds to exactly 58100000.0, so the exact rational
truncation used here agrees with the float computation. -/
def herdPop : Int := truncQ (Rat.divInt (GER_POP * 7) 10)

/-- month_third from line 94: int(30.43 // 3) = 10 (floor division; the
double closest to 30.43 also floors to 10 after dividing by 3). -/
def monthThird : Int := Int.fdiv 3043 300

/-- month_segment_dict from lines 96-100: the three segment labels zipped
with the upper bounds of range((third+1)*month_third) for third in 0,1,2. -/
def monthSegmentDict : List (String × Int) :=
  List.zip [("early " : String), "mid-", "late "]
    ((List.range 3).map (fun third => ((third : Int) + 1) * monthThird))

/-- Lines 89-104 of data_preparator: project today + days_to_herd onto a
calendar date (date arithmetic out of the Python date range raises
OverflowError), then pick the first month segment whose range contains the
target day of month; the [0] subscript on an empty match list raises
IndexError (which happens for days 30 and 31). -/
def monthString (targetSerial : Int) : Except PyErr String :=
  if targetSerial < minDateSerial ∨ maxDateSerial < targetSerial then
    .error .overflowError
  else
    match civilFromDays targetSerial with
    | (y, m, d) =>
      match (monthSegmentDict.filter (fun p => decide (0 ≤ d ∧ d < p.2))).head? with
      | none => .error .indexError
      | some seg => .ok (seg.1 ++ monthNameOf m ++ " " ++ toString y)

/-- Lines 74 and 77: the Zweitimpfung column access (KeyError when the column is
absent), .rolling(7).mean(), .iloc[-1], int(...). -/
def avgDailyVacs (df : Frame) : Except PyErr Int :=
  if df.hasZweit = false then .error .keyError
  else
    match ilocLast (rollingMean7 (zweitCol df)) with
    | .error e => .error e
    | .ok p => pyIntPF p

/-- Line 82: int of the last cell of the Zweitimpfung cumsum; KeyError when the
column is absent, ValueError when the last cell is NaN. -/
def immuPop (df : Frame) : Except PyErr Int :=
  if df.hasZweit = false then .error .keyError
  else
    match ilocLast (cumsum (zweitCol df)) with
    | .error e => .error e
    | .ok c => intOfCell c

/-- The fallible body of data_preparator (lines 72-106), with the reference
date today injected as a parameter.  The pure bindings (pct_daily_chg and the derived
integers) follow the source order; the dict literal at the end collects the
nine keys the source inserts, in insertion order.  immu_percent and
days_to_herd model int(x/y) on Python floats as exact rational truncation. -/
def dataPreparatorCore (today : Int) (df : Frame) : Except PyErr PyDict :=
  match ilocLast (datumCol df) with
  | .error e => .error e
  | .ok current_date =>
    match avgDailyVacs df with
    | .error e => .error e
    | .ok avg =>
      let pct := pctChange (rollingMean7 (zweitCol df))
      match immuPop df with
      | .error e => .error e
      | .ok immu =>
        let immu_percent := truncQ (Rat.divInt (immu * 100) GER_POP)
        let missing := herdPop - immu
        if avg = 0 then .error .zeroDivisionError
        else
          let days := truncQ (Rat.divInt missing avg)
          match monthString (today + days) with
          | .error e => .error e
          | .ok s =>
            .ok [("data_as_of", PyVal.int current_date),
                 ("pct_daily_chg", PyVal.series pct),
                 ("avg_daily_vacs", PyVal.int avg),
                 ("herd_pop", PyVal.int herdPop),
                 ("immu_pop", PyVal.int immu),
                 ("immu_percent", PyVal.int immu_percent),
                 ("missing_pop", PyVal.int missing),
                 ("days_to_herd", PyVal.int days),
                 ("immunity_month_string", PyVal.str s)]

/-- data_preparator (lines 59-106): the column-name check of lines 68-70
only warns (first component); the second component is the computed dict or
the exception that escapes. -/
def data_preparator (today : Int) (df : Frame) : List String × Except PyErr PyDict :=
  ((if df.hasZweit then [] else ["Column name in RKI data has changed"]),
   dataPreparatorCore today df)

/-- Lines 39-47 of frame_cleaner: for day in range(7), look for rows whose
Datum equals today - day; stop at the first day with a match and take the
first matching positional index (the raw table has a default RangeIndex, so
the pandas label index equals the position). -/
def findIdx7 (today : Int) (rows : List Row) : Option Nat :=
  (List.range 7).findSome? (fun day =>
    rows.findIdx? (fun r => r.datum = today - (day : Int)))

/-- frame_cleaner (lines 34-56) with the reference date today injected.  When a date in
the 7-day window matches, the frame is truncated with iloc[:index+1], which
keeps the matched row itself; the later to_datetime/strftime round trip on
the Datum column is a formatting change only and keeps the serial model.
When no date matches, the source logs a warning and then evaluates
first_day_index + 1 with first_day_index = None, raising TypeError. -/
def frame_cleaner (today : Int) (df : Frame) : List String × Except PyErr Frame :=
  match findIdx7 today df.rows with
  | some i => ([], .ok ⟨df.hasZweit, df.rows.take (i + 1)⟩)
  | none => (["DataFrame contains no usable values in last 7 days"], .error .typeError)

/-- One statement of the module entry block: the global names it reads (in
evaluation order) and the names it binds on success. -/
structure PyStmt where
  reads : List String
  binds : List String
deriving DecidableEq

/-- Names bound at module top level when the entry block runs: imports,
module constants and functions, plus the print builtin.  The names tbh,
days_to_immunity and image_generator are not among them. -/
def moduleTopLevelNames : List String :=
  ["urllib", "pd", "plt", "mpimg", "StrMethodFormatter", "sns", "xlrd",
   "requests", "dt", "os", "tweepy", "config", "logging", "RKI_EXCEL_URL",
   "file_downloader", "frame_cleaner", "data_preparator", "vac_plotter",
   "twitter_texter", "twitter_poster", "print"]

/-- The statements of the try block in lines 157-164, in order, with the
global/local names each one evaluates. -/
def mainTryStmts : List PyStmt :=
  [⟨["tbh"], ["url"]⟩,
   ⟨["file_downloader", "url"], ["vac_file"]⟩,
   ⟨["frame_cleaner", "vac_file"], ["clean_frame"]⟩,
   ⟨["days_to_immunity", "clean_frame"], ["immu_days"]⟩,
   ⟨["image_generator", "immu_days"], ["img"]⟩,
   ⟨["twitter_poster"], []⟩,
   ⟨["print"], []⟩]

/-- Python name resolution for the try block: statements run in order; the
first statement reading a name that is not bound raises NameError for that
name, and no later statement runs.  Returns the raising name (if any) and
the statements that completed. -/
def execStmts (env : List String) : List PyStmt → Option String × List PyStmt
  | [] => (none, [])
  | s :: rest =>
      match s.reads.find? (fun n => !(env.contains n)) with
      | some n => (some n, [])
      | none =>
          let r := execStmts (env ++ s.binds) rest
          (r.1, s :: r.2)

/-- Outcome of the __main__ block: the name whose lookup raised NameError
(caught and printed by the except branch), and the completed statements. -/
def mainRun : Option String × List PyStmt := execStmts moduleTopLevelNames mainTryStmts

/-- Whether the entry block ever reaches the twitter_poster call. -/
def mainPosted : Bool := mainRun.2.any (fun s => s.reads.contains "twitter_poster")

/-- Whether the except branch prints a caught exception. -/
def mainPrintedError : Bool := mainRun.1.isSome

end ImmunityBot

namespace ImmunityBot

/-- Total of the Zweitimpfung column, reading NaN cells as 0 (only used on
clean frames, which have no NaN cells). -/
def zweitTotal (df : Frame) : Int := ((zweitCol df).map (fun o => o.getD 0)).sum

/-- Sum of the last seven Zweitimpfung cells of a frame. -/
def last7Sum (df : Frame) : Int :=
  (((zweitCol df).drop (df.rows.length - 7)).map (fun o => o.getD 0)).sum

/-- Appending further rows to a frame, for the prefix-extension property. -/
def extendFrame (df : Frame) (ys : List Row) : Frame := ⟨df.hasZweit, df.rows ++ ys⟩

lemma getLast?_map_range (f : Nat → α) (n : Nat) (h : n ≠ 0) :
    ((List.range n).map f).getLast? = some (f (n - 1)) := by
  rw [List.getLast?_eq_getElem?]
  simp only [List.length_map, List.length_range, List.getElem?_map, List.getElem?_range]
  have hlt : n - 1 < n := Nat.sub_lt (Nat.pos_of_ne_zero h) one_pos
  simp [hlt]

lemma ilocLast_ok_of_ne_nil (xs : List α) (h : xs ≠ []) : ∃ x, ilocLast xs = .ok x := by
  cases hx : xs.getLast? with
  | none => exact absurd (List.getLast?_eq_none_iff.mp hx) h
  | some x => exact ⟨x, by simp [ilocLast, hx]⟩

lemma optSum_clean (l : List (Option Int)) (h : ∀ x ∈ l, x ≠ none) :
    optSum l = some ((l.map (fun o => o.getD 0)).sum) := by
  induction l with
  | nil => simp [optSum]
  | cons x xs ih =>
    cases x with
    | none => exact absurd rfl (h none (by simp))
    | some v =>
      rw [optSum, ih (fun x hx => h x (by simp [hx]))]
      simp [Option.map]

lemma rollingMean7_getLast (xs : List (Option Int)) (h7 : 7 ≤ xs.length)
    (hc : ∀ x ∈ xs, x ≠ none) :
    (rollingMean7 xs).getLast? =
      some (.val (Rat.divInt (((xs.drop (xs.length - 7)).map (fun o => o.getD 0)).sum) 7)) := by
  have hn : xs.length ≠ 0 := by omega
  have h1 : xs.length - 1 + 1 = xs.length := by omega
  have htake : (xs.drop (xs.length - 7)).take 7 = xs.drop (xs.length - 7) :=
    List.take_of_length_le (by rw [List.length_drop]; omega)
  rw [rollingMean7, getLast?_map_range _ _ hn]
  simp only [h1, htake]
  rw [if_neg (by omega), optSum_clean _ (fun x hx => hc x (List.mem_of_mem_drop hx))]

lemma avgDailyVacs_clean (df : Frame) (hc : CleanSeries df) (h7 : 7 ≤ df.rows.length) :
    avgDailyVacs df = .ok (truncQ (Rat.divInt (last7Sum df) 7)) := by
  have hlen : (zweitCol df).length = df.rows.length := by simp [zweitCol]
  have hcc : ∀ x ∈ zweitCol df, x ≠ none := by
    intro x hx
    rcases List.mem_map.mp hx with ⟨r, hr, rfl⟩
    exact hc.2 r hr
  have hroll := rollingMean7_getLast (zweitCol df) (by omega) hcc
  rw [avgDailyVacs, if_neg (by simp [hc.1]), ilocLast, hroll]
  simp [pyIntPF, last7Sum, hlen]

lemma avgDailyVacs_ok_rows_ne_nil {df : Frame} {a : Int}
    (h : avgDailyVacs df = .ok a) : df.rows ≠ [] := by
  intro hnil
  rw [avgDailyVacs] at h
  split at h
  · cases h
  · have hz : zweitCol df = [] := by simp [zweitCol, hnil]
    rw [hz] at h
    simp [rollingMean7, ilocLast] at h

lemma cumsumAux_getLast (xs : List (Option Int)) (hne : xs ≠ [])
    (hc : ∀ x ∈ xs, x ≠ none) (acc : Int) :
    (cumsumAux acc xs).getLast? = some (some (acc + (xs.map (fun o => o.getD 0)).sum)) := by
  induction xs generalizing acc with
  | nil => exact absurd rfl hne
  | cons x xs ih =>
    cases x with
    | none => exact absurd rfl (hc none (by simp))
    | some v =>
      cases xs with
      | nil => simp [cumsumAux, add_assoc]
      | cons y ys =>
        have hys : cumsumAux (acc + v) (y :: ys) ≠ [] := by
          cases y <;> simp [cumsumAux]
        rw [cumsumAux]
        rw [List.getLast?_cons]
        rw [ih (by simp) (fun x hx => hc x (by simp [hx])) (acc + v)]
        simp [add_assoc]

lemma immuPop_clean (df : Frame) (hc : CleanSeries df) (hne : df.rows ≠ []) :
    immuPop df = .ok (zweitTotal df) := by
  have hznil : zweitCol df ≠ [] := by
    cases h : df.rows with
    | nil => exact absurd h hne
    | cons r rs => simp [zweitCol, h]
  have hcc : ∀ x ∈ zweitCol df, x ≠ none := by
    intro x hx
    rcases List.mem_map.mp hx with ⟨r, hr, rfl⟩
    exact hc.2 r hr
  rw [immuPop, if_neg (by simp [hc.1]), cumsum, ilocLast,
    cumsumAux_getLast (zweitCol df) hznil hcc 0]
  simp [intOfCell, zweitTotal]

lemma datumCol_ne_nil {df : Frame} (h : df.rows ≠ []) : datumCol df ≠ [] := by
  cases hr : df.rows with
  | nil => exact absurd hr h
  | cons r rs => simp [datumCol, hr]

lemma core_ok_keys {t : Int} {df : Frame} {d : PyDict}
    (h : dataPreparatorCore t df = .ok d) :
    d.map Prod.fst =
      ["data_as_of", "pct_daily_chg", "avg_daily_vacs", "herd_pop", "immu_pop",
       "immu_percent", "missing_pop", "days_to_herd", "immunity_month_string"] := by
  unfold dataPreparatorCore at h
  repeat' split at h
  all_goals try cases h
  all_goals simp only [] at h
  all_goals try split at h
  all_goals try cases h
  all_goals rfl

end ImmunityBot

namespace ImmunityBot

/-- Concrete clean 8-row series: covered population 50,000,000 and a
7-day average of 300,000 (serial 18687 is 2021-03-01). -/
def dfW : Frame :=
  ⟨true, [⟨18679, some 47900000⟩, ⟨18680, some 300000⟩, ⟨18681, some 300000⟩,
          ⟨18682, some 300000⟩, ⟨18683, some 300000⟩, ⟨18684, some 300000⟩,
          ⟨18685, some 300000⟩, ⟨18686, some 300000⟩]⟩

/-- The dictionary data_preparator returns on dfW with today = 18687. -/
def dictW : PyDict :=
  [("data_as_of", PyVal.int 18686),
   ("pct_daily_chg", PyVal.series
      [.nan, .nan, .nan, .nan, .nan, .nan, .nan, .val (mkRat (-68) 71)]),
   ("avg_daily_vacs", PyVal.int 300000),
   ("herd_pop", PyVal.int 58100000),
   ("immu_pop", PyVal.int 50000000),
   ("immu_percent", PyVal.int 60),
   ("missing_pop", PyVal.int 8100000),
   ("days_to_herd", PyVal.int 27),
   ("immunity_month_string", PyVal.str "late March 2021")]

/-- Concrete clean 7-row series whose completion counts are all zero, so the
7-day rolling average truncates to 0. -/
def dfZero : Frame :=
  ⟨true, [⟨0, some 0⟩, ⟨1, some 0⟩, ⟨2, some 0⟩, ⟨3, some 0⟩, ⟨4, some 0⟩,
          ⟨5, some 0⟩, ⟨6, some 0⟩]⟩

/-- Concrete clean 7-row series for which days_to_herd is 29, so the
projected date from today = 18687 (2021-03-01) is 2021-03-30, day 30. -/
def dfC5 : Frame :=
  ⟨true, [⟨18680, some 1600000⟩, ⟨18681, some 1600000⟩, ⟨18682, some 1600000⟩,
          ⟨18683, some 1600000⟩, ⟨18684, some 1600000⟩, ⟨18685, some 1600000⟩,
          ⟨18686, some 1600000⟩]⟩

/-- Raw table with six valid rows for the days before serial 18700 and a
placeholder row dated 18700 (today) whose Zweitimpfung cell is missing. -/
def rawC2 : Frame :=
  ⟨true, [⟨18694, some 100000⟩, ⟨18695, some 110000⟩, ⟨18696, some 120000⟩,
          ⟨18697, some 130000⟩, ⟨18698, some 140000⟩, ⟨18699, some 150000⟩,
          ⟨18700, none⟩]⟩

/-- Raw table whose rows are all dated far before the 7-day lookback window
of today = serial 18700. -/
def rawC3 : Frame :=
  ⟨true, [⟨18600, some 100000⟩, ⟨18601, some 110000⟩, ⟨18602, some 120000⟩]⟩

/-- A nonempty frame lacking the Zweitimpfung column. -/
def dfNoCol : Frame := ⟨false, [⟨0, some 1⟩]⟩

/-- A single extra row appended to dfW for the prefix-extension property. -/
def ysW : List Row := [⟨18687, some 100⟩]

/-- C1 counterexample: at a Clean Series with at least 7 rows whose rolling
average truncates to 0, the exception escaping data_preparator is the
builtin numeric ZeroDivisionError, not a distinct degeneracy error raised
by the program, contradicting the claim that the division by zero is not
allowed to escape as an unhandled numeric exception. -/
theorem zero_rate_escapes_as_zero_division_cex :
    CleanSeries dfZero ∧ avgDailyVacs dfZero = .ok 0 ∧
      (data_preparator 0 dfZero).2 = .error .zeroDivisionError := by decide

/-- C1 (amended): for every Clean Series with at least 7 rows whose 7-day
rolling average truncates to 0, data_preparator never produces a result
dictionary (days_remaining is not computed and no unbounded value appears);
instead the builtin ZeroDivisionError escapes the function unhandled. -/
theorem zero_rate_raises_unhandled_zero_division (t : Int) (df : Frame)
    (hc : CleanSeries df) (h7 : 7 ≤ df.rows.length)
    (h0 : avgDailyVacs df = .ok 0) :
    (data_preparator t df).2 = .error .zeroDivisionError := by
  have hne : df.rows ≠ [] := by
    intro h
    rw [h] at h7
    simp at h7
  obtain ⟨cd, hcd⟩ := ilocLast_ok_of_ne_nil (datumCol df) (datumCol_ne_nil hne)
  have hI := immuPop_clean df hc hne
  simp [data_preparator, dataPreparatorCore, hcd, h0, hI]

/-- C1 witness: the amended theorem applied to the all-zero series. -/
theorem zero_rate_raises_unhandled_zero_division_witness :
    CleanSeries dfZero ∧ 7 ≤ dfZero.rows.length ∧ avgDailyVacs dfZero = .ok 0 ∧
      (data_preparator 0 dfZero).2 = .error .zeroDivisionError :=
  ⟨by decide, by decide, by decide,
    zero_rate_raises_unhandled_zero_division 0 dfZero (by decide) (by decide) (by decide)⟩

/-- C2: on a raw table whose last row is a placeholder dated today (serial
18700) with a missing completion count and six valid prior rows, the day-0
lookup matches the placeholder row and iloc[:index+1] keeps it, so the
returned frame ends with the placeholder row dated today (not yesterday)
and violates the Clean Series invariant, contrary to the code comment and
the spec. -/
theorem frame_cleaner_keeps_today_placeholder_bug :
    (frame_cleaner 18700 rawC2).2 = .ok ⟨true, rawC2.rows⟩ ∧
      rawC2.rows.getLast? = some ⟨18700, none⟩ ∧
      ¬ CleanSeries (⟨true, rawC2.rows⟩ : Frame) := by decide

/-- C3: on a raw table with no row dated within the 7 days up to today
(serial 18700), frame_cleaner logs the staleness warning but then raises
TypeError from first_day_index + 1 with first_day_index = None, instead of
returning the table unmodified as the spec describes. -/
theorem frame_cleaner_stale_warns_then_type_error_bug :
    frame_cleaner 18700 rawC3 =
      (["DataFrame contains no usable values in last 7 days"], .error .typeError) := by decide

/-- C4 counterexample: on a concrete successful run the Projection Result
dictionary contains no sustainable_rate entry. -/
theorem projection_lacks_sustainable_rate_cex :
    (data_preparator 18687 dfW).2 = .ok dictW ∧
      List.lookup "sustainable_rate" dictW = none := by decide

/-- C4 (amended): every successful run of data_preparator returns a
dictionary whose keys are exactly data_as_of, pct_daily_chg,
avg_daily_vacs, herd_pop, immu_pop, immu_percent, missing_pop,
days_to_herd and immunity_month_string; no sustainable_rate is computed. -/
theorem data_preparator_keys_no_sustainable_rate (t : Int) (df : Frame)
    (ws : List String) (d : PyDict) (h : data_preparator t df = (ws, .ok d)) :
    d.map Prod.fst =
      ["data_as_of", "pct_daily_chg", "avg_daily_vacs", "herd_pop", "immu_pop",
       "immu_percent", "missing_pop", "days_to_herd", "immunity_month_string"] ∧
      "sustainable_rate" ∉ d.map Prod.fst := by
  have hcore : dataPreparatorCore t df = .ok d := congrArg Prod.snd h
  have hk := core_ok_keys hcore
  refine ⟨hk, ?_⟩
  rw [hk]
  decide

/-- C4 witness: the amended theorem applied to a concrete successful run. -/
theorem data_preparator_keys_no_sustainable_rate_witness :
    data_preparator 18687 dfW = ([], .ok dictW) ∧
      "sustainable_rate" ∉ dictW.map Prod.fst := by
  have h : data_preparator 18687 dfW = ([], .ok dictW) := by decide
  exact ⟨h, (data_preparator_keys_no_sustainable_rate 18687 dfW [] dictW h).2⟩

/-- C5: the calendar annotation is not total.  On a clean series whose
days_to_herd is 29 with today = 18687 (2021-03-01), the projected date is
2021-03-30; day 30 lies in none of the three ranges built from
month_third = 10, the matching list is empty, and the [0] subscript raises
IndexError, so data_preparator fails instead of returning an
immunity_month_string. -/
theorem month_segment_day30_index_error_bug :
    civilFromDays (18687 + 29) = (2021, 3, 30) ∧
      (data_preparator 18687 dfC5).2 = .error .indexError := by decide

/-- C10: the entry block reads the unbound name tbh in its first statement,
so every execution raises NameError there; the names days_to_immunity and
image_generator are unbound as well, the except branch catches and prints
the exception, no try statement completes, and the twitter_poster call is
never reached. -/
theorem main_block_name_error_never_posts :
    mainRun = (some "tbh", []) ∧ mainPosted = false ∧ mainPrintedError = true ∧
      moduleTopLevelNames.contains "tbh" = false ∧
      moduleTopLevelNames.contains "days_to_immunity" = false ∧
      moduleTopLevelNames.contains "image_generator" = false := by decide

end ImmunityBot

namespace ImmunityBot

/-- C6: with the configured population 83,000,000 the derived herd_pop is
58,100,000, and on any Clean Series whose covered population is 50,000,000
and whose truncated 7-day average is 300,000, data_preparator (run with
today = 2021-03-01) returns a dictionary with missing_pop 8,100,000 and
days_to_herd 27, all by truncation toward zero. -/
theorem data_preparator_example_metrics (df : Frame)
    (hc : CleanSeries df)
    (hAvg : avgDailyVacs df = .ok 300000)
    (hImmu : immuPop df = .ok 50000000) :
    ∃ d, (data_preparator (daysFromCivil 2021 3 1) df).2 = .ok d ∧
      List.lookup "herd_pop" d = some (.int 58100000) ∧
      List.lookup "missing_pop" d = some (.int 8100000) ∧
      List.lookup "days_to_herd" d = some (.int 27) := by
  have hne : df.rows ≠ [] := avgDailyVacs_ok_rows_ne_nil hAvg
  obtain ⟨cd, hcd⟩ := ilocLast_ok_of_ne_nil (datumCol df) (datumCol_ne_nil hne)
  have hH : herdPop = 58100000 := by decide
  have hP : truncQ (Rat.divInt (50000000 * 100) GER_POP) = 60 := by decide
  have hD : truncQ (Rat.divInt 8100000 300000) = 27 := by decide
  have hM : monthString (daysFromCivil 2021 3 1 + 27) = .ok "late March 2021" := by decide
  refine ⟨[("data_as_of", .int cd),
           ("pct_daily_chg", .series (pctChange (rollingMean7 (zweitCol df)))),
           ("avg_daily_vacs", .int 300000),
           ("herd_pop", .int 58100000),
           ("immu_pop", .int 50000000),
           ("immu_percent", .int 60),
           ("missing_pop", .int 8100000),
           ("days_to_herd", .int 27),
           ("immunity_month_string", .str "late March 2021")], ?_, rfl, rfl, rfl⟩
  simp only [data_preparator, dataPreparatorCore, hcd, hAvg, hImmu, hH, hP]
  norm_num [hD, hM]

/-- C6 witness: the theorem applied to the concrete series dfW. -/
theorem data_preparator_example_metrics_witness :
    (data_preparator (daysFromCivil 2021 3 1) dfW).2 = .ok dictW ∧
      List.lookup "herd_pop" dictW = some (.int 58100000) ∧
      List.lookup "missing_pop" dictW = some (.int 8100000) ∧
      List.lookup "days_to_herd" dictW = some (.int 27) := by
  have hrun : (data_preparator (daysFromCivil 2021 3 1) dfW).2 = .ok dictW := by decide
  obtain ⟨d, hd, h1, h2, h3⟩ :=
    data_preparator_example_metrics dfW (by decide) (by decide) (by decide)
  rw [hrun] at hd
  injection hd with hd2
  subst hd2
  exact ⟨hrun, h1, h2, h3⟩

/-- C7: on every Clean Series with at least 7 rows, avg_daily_vacs as
computed by data_preparator (column access, rolling(7).mean(), iloc[-1],
int()) equals the arithmetic mean of the last seven completion-count
values truncated to an integer. -/
theorem avg_daily_vacs_trunc_mean_last7 (df : Frame)
    (hc : CleanSeries df) (h7 : 7 ≤ df.rows.length) :
    avgDailyVacs df = .ok (truncQ ((last7Sum df : ℚ) / 7)) := by
  rw [avgDailyVacs_clean df hc h7, Rat.divInt_eq_div]
  norm_num

/-- C7 witness: the theorem applied to the concrete series dfW, whose last
seven completion counts are all 300,000. -/
theorem avg_daily_vacs_trunc_mean_last7_witness :
    CleanSeries dfW ∧ 7 ≤ dfW.rows.length ∧
      avgDailyVacs dfW = .ok (truncQ ((last7Sum dfW : ℚ) / 7)) :=
  ⟨by decide, by decide, avg_daily_vacs_trunc_mean_last7 dfW (by decide) (by decide)⟩

/-- C8: on every nonempty Clean Series with non-negative completion counts,
immu_pop as computed by data_preparator equals the cumulative sum of the
completion-count column through the last row, and extending the series
with further clean non-negative rows never decreases it. -/
theorem immu_pop_cumsum_and_monotone (df : Frame) (ys : List Row)
    (hc : CleanSeries df) (hne : df.rows ≠ [])
    (hys : ∀ r ∈ ys, r.zweit ≠ none)
    (hpos : ∀ r ∈ df.rows, 0 ≤ r.zweit.getD 0)
    (hposy : ∀ r ∈ ys, 0 ≤ r.zweit.getD 0) :
    immuPop df = .ok (zweitTotal df) ∧
      immuPop (extendFrame df ys) = .ok (zweitTotal (extendFrame df ys)) ∧
      zweitTotal df ≤ zweitTotal (extendFrame df ys) := by
  have hc2 : CleanSeries (extendFrame df ys) := by
    refine ⟨hc.1, ?_⟩
    intro r hr
    rcases List.mem_append.mp hr with h | h
    · exact hc.2 r h
    · exact hys r h
  have hne2 : (extendFrame df ys).rows ≠ [] := by
    cases hrr : df.rows with
    | nil => exact absurd hrr hne
    | cons a l => simp [extendFrame, hrr]
  refine ⟨immuPop_clean df hc hne, immuPop_clean _ hc2 hne2, ?_⟩
  have hsplit : zweitTotal (extendFrame df ys) =
      zweitTotal df + ((ys.map Row.zweit).map (fun o => o.getD 0)).sum := by
    simp [zweitTotal, zweitCol, extendFrame]
  have h0 : 0 ≤ ((ys.map Row.zweit).map (fun o => o.getD 0)).sum := by
    refine List.sum_nonneg ?_
    intro x hx
    rcases List.mem_map.mp hx with ⟨o, ho, rfl⟩
    rcases List.mem_map.mp ho with ⟨r, hr, rfl⟩
    exact hposy r hr
  omega

/-- C8 witness: the theorem applied to dfW extended by one clean row. -/
theorem immu_pop_cumsum_and_monotone_witness :
    CleanSeries dfW ∧
      (immuPop dfW = .ok (zweitTotal dfW) ∧
        immuPop (extendFrame dfW ysW) = .ok (zweitTotal (extendFrame dfW ysW)) ∧
        zweitTotal dfW ≤ zweitTotal (extendFrame dfW ysW)) :=
  ⟨by decide,
    immu_pop_cumsum_and_monotone dfW ysW (by decide) (by decide) (by decide)
      (by decide) (by decide)⟩

/-- C9: on every dataframe lacking the Zweitimpfung column, data_preparator
logs the changed-column warning without aborting at the check itself, never
returns a Projection Result, and (whenever the frame is nonempty, so that
execution reaches the column access of line 74) raises KeyError on the
missing column. -/
theorem missing_column_warns_then_key_error (t : Int) (df : Frame)
    (hz : df.hasZweit = false) :
    (data_preparator t df).1 = ["Column name in RKI data has changed"] ∧
      (∀ d, (data_preparator t df).2 ≠ .ok d) ∧
      (df.rows ≠ [] → (data_preparator t df).2 = .error .keyError) := by
  have hcore : (df.rows = [] ∧ dataPreparatorCore t df = .error .indexError) ∨
      (df.rows ≠ [] ∧ dataPreparatorCore t df = .error .keyError) := by
    cases hr : df.rows with
    | nil =>
      left
      refine ⟨rfl, ?_⟩
      have hd : datumCol df = [] := by simp [datumCol, hr]
      simp [dataPreparatorCore, hd, ilocLast]
    | cons r rs =>
      right
      refine ⟨by simp, ?_⟩
      obtain ⟨cd, hcd⟩ := ilocLast_ok_of_ne_nil (datumCol df) (datumCol_ne_nil (by simp [hr]))
      have hK : avgDailyVacs df = .error .keyError := by simp [avgDailyVacs, hz]
      simp [dataPreparatorCore, hcd, hK]
  refine ⟨by simp [data_preparator, hz], ?_, ?_⟩
  · intro d hok
    rcases hcore with ⟨_, he⟩ | ⟨_, he⟩ <;>
      · have : dataPreparatorCore t df = (data_preparator t df).2 := rfl
        rw [this, hok] at he
        cases he
  · intro hne
    rcases hcore with ⟨hnil, _⟩ | ⟨_, he⟩
    · exact absurd hnil hne
    · exact he

/-- C9 witness: the theorem applied to a nonempty frame without the column. -/
theorem missing_column_warns_then_key_error_witness :
    (data_preparator 0 dfNoCol).1 = ["Column name in RKI data has changed"] ∧
      (data_preparator 0 dfNoCol).2 = .error .keyError := by
  have h := missing_column_warns_then_key_error 0 dfNoCol rfl
  exact ⟨h.1, h.2.2 (by decide)⟩

end ImmunityBot
